import Mathlib

/-!
Verification of the model_analyzer configuration-parsing and result-ranking
pipeline, as a shallow embedding of the Python sources:

* `model_analyzer/triton/model/model_config_utils.py` (the config parser),
* `model_analyzer/triton/model/model_config.py` (typed accessors/setters),
* `model_analyzer/result/result_comparator.py` (the metric comparator),
* `model_analyzer/result/run_result.py` (comparator-derived ordering),
* `model_analyzer/result/result_manager.py` (ranking queue and tables).

Strings are embedded as `List Char`, Python numbers as `ℚ` (exact
arithmetic), Python exceptions as an explicit error type threaded through
`Except`.  Loops whose termination Python does not guarantee take a fuel
parameter; running out of fuel is reported as a distinguished error, so
`∀ fuel, run fuel = .error .outOfFuel` expresses nontermination of the
embedded loop.
-/

/-- One error type for every exception the embedded code can raise.  The
`TritonModelAnalyzerException` raised by the comparator for an unknown
priority is `unknownMetricCategory`; the ones raised by `ModelConfig`
accessors are `configFieldMissing`; the ones raised by `ResultManager` are
`uninitializedTables`, `uninitializedComparator` and `unknownTableKey`.
Python builtins: `indexError` (out-of-range indexing), `attributeError`
(`_current_run_result` touched before `init_result`), `valueError` /
`typeError` (`int()` on unsuitable input), `fileNotFound` (`open` on a
missing `config.pbtxt`).  `malformedConfigText` appears in the spec's error
taxonomy; no code path of the embedding produces it.  `outOfFuel` is the
fuel marker described in the file header. -/
inductive PyErr where
  | indexError
  | attributeError
  | valueError
  | typeError
  | fileNotFound
  | malformedConfigText
  | unknownMetricCategory (kind : Nat)
  | configFieldMissing (field : List Char)
  | uninitializedTables
  | uninitializedComparator
  | unknownTableKey
  | outOfFuel
deriving DecidableEq

/-- The characters Python's `str.strip` family removes. -/
def isPySpace (c : Char) : Bool :=
  c == ' ' || c == '\t' || c == '\n' || c == '\r' || c == '\x0b' || c == '\x0c'

/-- Python `str.lstrip()`. -/
def lstripL (l : List Char) : List Char := l.dropWhile isPySpace

/-- Python `str.rstrip()`. -/
def rstripL (l : List Char) : List Char := (l.reverse.dropWhile isPySpace).reverse

/-- Python `str.strip()`. -/
def stripL (l : List Char) : List Char := rstripL (lstripL l)

/-- A string literal as the character list the embedding works on. -/
def strL (s : String) : List Char := s.data

def pyFindAux (c : Char) : List Char → Int → Int
  | [], _ => -1
  | x :: t, i => if x == c then i else pyFindAux c t (i + 1)

/-- Python `str.find`: the index of the first occurrence of `c`, `-1` when
there is none. -/
def pyFind (l : List Char) (c : Char) : Int := pyFindAux c l 0

/-- Python `str.find` as an option, for the `> -1` membership branches. -/
def pyFindIdx (c : Char) : List Char → Option Nat
  | [] => none
  | x :: t => if x == c then some 0 else (pyFindIdx c t).map (· + 1)

/-- Python slice `l[:i]`, including the negative-index convention. -/
def pyTake (l : List Char) (i : Int) : List Char :=
  if 0 ≤ i then l.take i.toNat else l.take (l.length - (-i).toNat)

/-- Python slice `l[i:]`, including the negative-index convention. -/
def pyDrop (l : List Char) (i : Int) : List Char :=
  if 0 ≤ i then l.drop i.toNat else l.drop (l.length - (-i).toNat)

/-- Python `l[i]` on a list: the element, or `IndexError`. -/
def pyGet {α : Type} (l : List α) (i : Nat) : Except PyErr α :=
  match l.get? i with
  | some x => .ok x
  | none => .error .indexError

/-- The opening-brace character, kept out of literals. -/
def lbrace : Char := Char.ofNat 123

/-- The closing-brace character, kept out of literals. -/
def rbrace : Char := Char.ofNat 125

/-- The double-quote character, kept out of literals. -/
def quoteChar : Char := Char.ofNat 34

/-- The nested value tree `parse_dict` / `parse_list` build: a Python `str`,
`list` or `dict` (insertion-ordered, keys unique). -/
inductive ConfigValue where
  | scalar : List Char → ConfigValue
  | list : List ConfigValue → ConfigValue
  | message : List (List Char × ConfigValue) → ConfigValue

/-- The root mapping the parser fills: an insertion-ordered association
list standing for a Python `dict`. -/
abbrev Msg := List (List Char × ConfigValue)

/-- Lookup in an insertion-ordered Python `dict`. -/
def dictLookup {K V : Type} [DecidableEq K] : List (K × V) → K → Option V
  | [], _ => none
  | (a, b) :: t, k => if k = a then some b else dictLookup t k

/-- Python `d[k] = v`: overwrite in place when the key exists (its position
is kept), append otherwise. -/
def dictSet {K V : Type} [DecidableEq K] : List (K × V) → K → V → List (K × V)
  | [], k, v => [(k, v)]
  | (a, b) :: t, k, v => if a = k then (k, v) :: t else (a, b) :: dictSet t k v

mutual

/-- `parse_dict(config_str, output)` of `model_config_utils.py`: one dict
context.  Strips leading whitespace, takes the text up to the next line
break, finds the first `:`, `[` or `{` in that line (in that priority), and
either records a scalar entry, recurses into a list or dict context, or
stops and hands the unconsumed remainder back to the caller.  Fuel bounds
the loop; every branch of the source consumes it. -/
def parse_dict : Nat → List Char → Msg → Except PyErr (Msg × List Char)
  | 0, _, _ => .error .outOfFuel
  | fuel + 1, s0, out =>
    let s := lstripL s0
    let nextNewline := pyFind s '\n'
    if nextNewline ≤ 0 then .ok (out, s)
    else
      let nextItem := s.take nextNewline.toNat
      match pyFindIdx ':' nextItem with
      | some kd =>
        let nextVal := (lstripL (nextItem.drop (kd + 1))).filter (fun c => c != quoteChar)
        parse_dict fuel (s.drop (nextNewline.toNat + 1))
          (dictSet out (nextItem.take kd) (.scalar nextVal))
      | none =>
        match pyFindIdx '[' nextItem with
        | some ld =>
          match parse_list fuel (s.drop (ld + 1)) [] with
          | .error e => .error e
          | .ok (lst, rest) =>
            parse_dict fuel (lstripL rest)
              (dictSet out (rstripL (nextItem.take ld)) (.list lst))
        | none =>
          match pyFindIdx lbrace nextItem with
          | some dd =>
            match parse_dict fuel (s.drop (dd + 1)) [] with
            | .error e => .error e
            | .ok (msg, rest) =>
              parse_dict fuel (lstripL rest)
                (dictSet out (rstripL (nextItem.take dd)) (.message msg))
          | none => .ok (out, s)

/-- `parse_list(config_str, output)` of `model_config_utils.py`: one list
context.  `config_str[0]` on an exhausted input is Python's `IndexError`;
a `]` closes the list; a `{` recurses into a dict context and then skips one
character (the `}`); otherwise the token up to the nearer of `,` and `]` is
appended as a scalar, with Python's negative-slice behaviour when neither
delimiter occurs (`delimiter = -1` re-enters the loop without consuming
anything, which is the source's infinite loop). -/
def parse_list : Nat → List Char → List ConfigValue → Except PyErr (List ConfigValue × List Char)
  | 0, _, _ => .error .outOfFuel
  | fuel + 1, s0, out =>
    let s := lstripL s0
    match s with
    | [] => .error .indexError
    | c :: rest =>
      if c == ']' then .ok (out, lstripL rest)
      else if c == lbrace then
        match parse_dict fuel ((lstripL s).drop 1) [] with
        | .error e => .error e
        | .ok (msg, r) => parse_list fuel ((lstripL r).drop 1) (out ++ [.message msg])
      else
        let comma := pyFind s ','
        let endList := pyFind s ']'
        let delimiter := if comma < 0 ∨ comma > endList then endList else comma
        parse_list fuel (pyDrop s (delimiter + 1))
          (out ++ [.scalar (stripL (pyTake s delimiter))])

end

/-- `parse_model_config(model_path)`: reading `config.pbtxt` is embedded as
an optional resource (`none` when `open` raises `FileNotFoundError`), then
one top-level dict context is parsed into an initially empty mapping and the
unconsumed remainder is discarded, as in the source.  The fuel
`length + 1` covers every terminating run of the source on the input. -/
def parse_model_config (resource : Option (List Char)) : Except PyErr Msg :=
  match resource with
  | none => .error .fileNotFound
  | some s =>
    match parse_dict (s.length + 1) s [] with
    | .error e => .error e
    | .ok (m, _) => .ok m

/-- A `RecordType` (MetricKind): opaque, hashable, equality-comparable —
embedded as a natural number. -/
abbrev MetricKind := Nat

/-- The index a list of metric types defines in `ResultComparator.__init__`
(`{types[i]: i for i in range(len(types))}`): position of a kind in the
list, the last occurrence winning as in a Python dict comprehension. -/
def typeToIdx : List MetricKind → MetricKind → Option Nat
  | [], _ => none
  | t :: ts, k =>
    match typeToIdx ts k with
    | some j => some (j + 1)
    | none => if t = k then some 0 else none

/-- `ResultComparator.__init__`'s construction data: the gpu and non-gpu
metric-type lists (each defining an index via `typeToIdx`), the priority
list and the threshold percentage.  The unimplemented `weights` parameter
(`None`, "TODO implement a weighted comparison") is omitted. -/
structure ResultComparator where
  gpu_metric_types : List MetricKind
  non_gpu_metric_types : List MetricKind
  metric_priorities : List MetricKind
  comparison_threshold_percent : ℚ
deriving DecidableEq

/-- `self._comparison_threshold_factor = (comparison_threshold_percent * 1.0) / 100`. -/
def ResultComparator.factor (c : ResultComparator) : ℚ :=
  c.comparison_threshold_percent * 1 / 100

/-- One gpu-scoped snapshot: the Python dict from gpu id to measurement row. -/
abbrev GpuSnapshot := List (Nat × List ℚ)

/-- The per-combination identity map a run configuration exposes
(`perf_configs[i]['model-name' | 'batch-size' | 'concurrency-range']`). -/
structure PerfConfig where
  model_name : List Char
  batch_size : ℚ
  concurrency_range : ℚ
deriving DecidableEq

/-- Modelled from the spec: the `RunConfig` class itself is not under
`src/` (only `run_config_generator.py` mentions it); per the spec's
run-configuration collaborator contract it exposes an ordered list of
per-combination identity maps via `perf_analyzer_configs()`. -/
structure RunConfig where
  perf_analyzer_configs : List PerfConfig
deriving DecidableEq

/-- `RunResult.__init__`: the run configuration, the injected comparator,
and the two snapshot sequences `add_data` appends to. -/
structure RunResult where
  run_config : RunConfig
  comparator : ResultComparator
  gpu_specific_measurements : List GpuSnapshot
  non_gpu_specific_measurements : List (List ℚ)
deriving DecidableEq

/-- `RunResult.add_data(measurements, has_gpu_ids)`: the `has_gpu_ids` flag
is carried by the sum tag (left = gpu-scoped dict, right = host row); the
chosen snapshot sequence is appended to, never reordered. -/
def RunResult.add_data (r : RunResult) (measurements : GpuSnapshot ⊕ List ℚ) : RunResult :=
  match measurements with
  | .inl g => { r with gpu_specific_measurements := r.gpu_specific_measurements ++ [g] }
  | .inr h => { r with non_gpu_specific_measurements := r.non_gpu_specific_measurements ++ [h] }

/-- `RunResult.get_measurements()`. -/
def RunResult.get_measurements (r : RunResult) : List GpuSnapshot × List (List ℚ) :=
  (r.gpu_specific_measurements, r.non_gpu_specific_measurements)

/-- A row as `_average_list` receives it: either a plain Python list of
numbers (the host-scoped measurements are passed through unchanged) or the
`dict_values` view `measurement.values()` that `_average_measurements`
appends for each gpu snapshot.  `len()` works on both; subscripting a
`dict_values` view raises `TypeError` in Python 3. -/
inductive PyRow where
  | pyList : List ℚ → PyRow
  | valuesView : List (List ℚ) → PyRow
deriving DecidableEq

/-- Python `len(row)`. -/
def PyRow.len : PyRow → Nat
  | .pyList l => l.length
  | .valuesView v => v.length

/-- Python `row[i]`: a list indexes; a `dict_values` view is not
subscriptable. -/
def PyRow.sub : PyRow → Nat → Except PyErr ℚ
  | .pyList l, i => pyGet l i
  | .valuesView _, _ => .error .typeError

/-- The column `row_list[j][i]` for all `j`, failing just where Python's
`[row_list[j][i] for j in range(N)]` does. -/
def columnAt : List PyRow → Nat → Except PyErr (List ℚ)
  | [], _ => .ok []
  | row :: rest, i =>
    match row.sub i with
    | .error e => .error e
    | .ok x =>
      match columnAt rest i with
      | .error e => .error e
      | .ok xs => .ok (x :: xs)

/-- The body of `_average_list`'s `for i in range(d)` loop:
`avg[i] = (sum([row_list[j][i] for j in range(N)]) * 1.0) / N`. -/
def avgLoop (rows : List PyRow) (N : ℚ) : List Nat → Except PyErr (List ℚ)
  | [] => .ok []
  | i :: is =>
    match columnAt rows i with
    | .error e => .error e
    | .ok col =>
      match avgLoop rows N is with
      | .error e => .error e
      | .ok xs => .ok ((col.sum * 1 / N) :: xs)

/-- `ResultComparator._average_list(row_list)`: an empty list of rows is
returned as is (an empty average row); otherwise the column-wise mean over
the rows, the width `d` taken from the first row. -/
def _average_list (row_list : List PyRow) : Except PyErr (List ℚ) :=
  match row_list with
  | [] => .ok []
  | r0 :: _ => avgLoop row_list (row_list.length : ℚ) (List.range r0.len)

/-- `ResultComparator._average_measurements(result)`: for each gpu snapshot
dict the `.values()` view is appended to `gpu_rows`, so all gpu ids of a
snapshot stand behind one (unsubscriptable) entry; the gpu rows are
averaged first, the non-gpu rows second.  Returns
`(avg gpu metrics, avg non-gpu metrics)`. -/
def _average_measurements (result : RunResult) : Except PyErr (List ℚ × List ℚ) :=
  let gpu_rows := result.gpu_specific_measurements.map
    (fun m => PyRow.valuesView (m.map Prod.snd))
  match _average_list gpu_rows with
  | .error e => .error e
  | .ok g =>
    match _average_list (result.non_gpu_specific_measurements.map PyRow.pyList) with
    | .error e => .error e
    | .ok n => .ok (g, n)

/-- The `for priority in self._metric_priorities` loop of
`ResultComparator.__call__`, kept branch for branch: the first branch tests
membership in the **gpu** index but reads the **non-gpu** average rows at
the gpu position; the `elif` repeats the very same gpu-index test (so its
gpu-row body is dead code); the `else` raises the unknown-category error. -/
def comparePriorities (c : ResultComparator)
    (avgGpu1 avgNonGpu1 avgGpu2 avgNonGpu2 : List ℚ) :
    List MetricKind → Except PyErr Int
  | [] => .ok 0
  | priority :: rest =>
    match typeToIdx c.gpu_metric_types priority with
    | some metric_idx =>
      match pyGet avgNonGpu1 metric_idx with
      | .error e => .error e
      | .ok a1 =>
        let threshold := c.factor * a1
        match pyGet avgNonGpu2 metric_idx with
        | .error e => .error e
        | .ok a2 =>
          let value_diff := a1 - a2
          if value_diff > threshold then .ok 1
          else if value_diff < -threshold then .ok (-1)
          else comparePriorities c avgGpu1 avgNonGpu1 avgGpu2 avgNonGpu2 rest
    | none =>
      match typeToIdx c.gpu_metric_types priority with
      | some metric_idx =>
        match pyGet avgGpu1 metric_idx with
        | .error e => .error e
        | .ok a1 =>
          let threshold := c.factor * a1
          match pyGet avgGpu2 metric_idx with
          | .error e => .error e
          | .ok a2 =>
            let value_diff := a1 - a2
            if value_diff > threshold then .ok 1
            else if value_diff < -threshold then .ok (-1)
            else comparePriorities c avgGpu1 avgNonGpu1 avgGpu2 avgNonGpu2 rest
      | none => .error (.unknownMetricCategory priority)

/-- `ResultComparator.__call__(result1, result2)`: both results' averages
are computed up front, then the priority walk decides `1`, `-1` or `0`. -/
def ResultComparator.call (c : ResultComparator) (result1 result2 : RunResult) :
    Except PyErr Int :=
  match _average_measurements result1 with
  | .error e => .error e
  | .ok (avgGpu1, avgNonGpu1) =>
    match _average_measurements result2 with
    | .error e => .error e
    | .ok (avgGpu2, avgNonGpu2) =>
      comparePriorities c avgGpu1 avgNonGpu1 avgGpu2 avgNonGpu2 c.metric_priorities

/-- `RunResult.__gt__`: the injected comparator of the left operand returns
`1`. -/
def RunResult.gt (r other : RunResult) : Except PyErr Bool :=
  match r.comparator.call r other with
  | .error e => .error e
  | .ok c => .ok (c = 1)

/-- `RunResult.__eq__`: the injected comparator returns `0`. -/
def RunResult.eq (r other : RunResult) : Except PyErr Bool :=
  match r.comparator.call r other with
  | .error e => .error e
  | .ok c => .ok (c = 0)

/-- `RunResult.__lt__` as `functools.total_ordering` derives it from
`__gt__` and `__eq__`: `not (self > other) and self != other`, with
Python's short-circuit evaluation order. -/
def RunResult.lt (r other : RunResult) : Except PyErr Bool :=
  match r.gt other with
  | .error e => .error e
  | .ok g =>
    if g then .ok false
    else
      match r.eq other with
      | .error e => .error e
      | .ok e => .ok (!e)

/-- Python `heap[pos] = v` inside `heapq` (always in range there). -/
def listSet {α : Type} : List α → Nat → α → List α
  | [], _, _ => []
  | _ :: t, 0, x => x :: t
  | h :: t, n + 1, x => h :: listSet t n x

/-- The loop of CPython's `heapq._siftdown`: bubble `newitem` up while it
compares `<` its parent.  Fuel bounds the walk; `pos + 1` always suffices. -/
def siftdownLoop {α : Type} (lt : α → α → Except PyErr Bool) (startpos : Nat) :
    Nat → Nat → List α → α → Except PyErr (List α)
  | 0, _, _, _ => .error .outOfFuel
  | _ + 1, pos, heap, newitem =>
    if startpos < pos then
      let parentpos := (pos - 1) / 2
      match pyGet heap parentpos with
      | .error e => .error e
      | .ok parent =>
        match lt newitem parent with
        | .error e => .error e
        | .ok b =>
          if b then siftdownLoop lt startpos pos parentpos (listSet heap pos parent) newitem
          else .ok (listSet heap pos newitem)
    else .ok (listSet heap pos newitem)

/-- CPython's `heapq._siftdown(heap, startpos, pos)`. -/
def _siftdown {α : Type} (lt : α → α → Except PyErr Bool) (heap : List α)
    (startpos pos : Nat) : Except PyErr (List α) :=
  match pyGet heap pos with
  | .error e => .error e
  | .ok newitem => siftdownLoop lt startpos (pos + 1) pos heap newitem

/-- The loop of CPython's `heapq._siftup`: walk down moving the smaller
child up, returning the final position of the hole.  Fuel bounds the walk;
`endpos + 1` always suffices. -/
def siftupLoop {α : Type} (lt : α → α → Except PyErr Bool) (endpos : Nat) :
    Nat → Nat → List α → Except PyErr (List α × Nat)
  | 0, _, _ => .error .outOfFuel
  | fuel + 1, pos, heap =>
    let childpos := 2 * pos + 1
    if childpos < endpos then
      let rightpos := childpos + 1
      let chooseChild : Except PyErr Nat :=
        if rightpos < endpos then
          match pyGet heap childpos with
          | .error e => .error e
          | .ok cl =>
            match pyGet heap rightpos with
            | .error e => .error e
            | .ok cr =>
              match lt cl cr with
              | .error e => .error e
              | .ok b => .ok (if b then childpos else rightpos)
        else .ok childpos
      match chooseChild with
      | .error e => .error e
      | .ok chosen =>
        match pyGet heap chosen with
        | .error e => .error e
        | .ok c => siftupLoop lt endpos fuel chosen (listSet heap pos c)
    else .ok (heap, pos)

/-- CPython's `heapq._siftup(heap, pos)`: after the walk the saved
`newitem` is written at the hole and `_siftdown` restores the invariant. -/
def _siftup {α : Type} (lt : α → α → Except PyErr Bool) (heap : List α) (pos : Nat) :
    Except PyErr (List α) :=
  let endpos := heap.length
  match pyGet heap pos with
  | .error e => .error e
  | .ok newitem =>
    match siftupLoop lt endpos (endpos + 1) pos heap with
    | .error e => .error e
    | .ok (heap1, pos1) => _siftdown lt (listSet heap1 pos1 newitem) pos pos1

/-- `heapq.heappush(heap, item)`: append, then sift down from the end.
All comparisons are `__lt__` of the sifted item. -/
def heappush {α : Type} (lt : α → α → Except PyErr Bool) (heap : List α) (item : α) :
    Except PyErr (List α) :=
  let heap1 := heap ++ [item]
  _siftdown lt heap1 0 (heap1.length - 1)

/-- `heapq.heappop(heap)`: pop the last element; on a nonempty remainder
return the old root, move the popped element to the root and sift up. -/
def heappop {α : Type} (lt : α → α → Except PyErr Bool) (heap : List α) :
    Except PyErr (α × List α) :=
  match heap.getLast? with
  | none => .error .indexError
  | some lastelt =>
    match heap.dropLast with
    | [] => .ok (lastelt, [])
    | r :: rest =>
      match _siftup lt (lastelt :: rest) 0 with
      | .error e => .error e
      | .ok heap1 => .ok (r, heap1)

/-- The digits of an optionally signed decimal string, or `none`. -/
def decDigitsVal : List Char → Option Nat
  | [] => none
  | ds =>
    if ds.all Char.isDigit then
      some (ds.foldl (fun n c => 10 * n + (c.toNat - 48)) 0)
    else none

/-- Python `int(str)` on the strings this configuration grammar produces:
surrounding whitespace is ignored, an optional sign precedes the digits,
anything else raises `ValueError`. -/
def pyIntOfString (s : List Char) : Except PyErr Int :=
  match stripL s with
  | '-' :: ds =>
    match decDigitsVal ds with
    | some n => .ok (-(n : Int))
    | none => .error .valueError
  | '+' :: ds =>
    match decDigitsVal ds with
    | some n => .ok (n : Int)
    | none => .error .valueError
  | ds =>
    match decDigitsVal ds with
    | some n => .ok (n : Int)
    | none => .error .valueError

/-- Python `int(value)` on a parsed config value: scalars are parsed as
decimal strings; `int()` of a list or dict raises `TypeError`. -/
def pyInt : ConfigValue → Except PyErr Int
  | .scalar s => pyIntOfString s
  | _ => .error .typeError

def kName : List Char := strL ("name")
def kPlatform : List Char := strL ("platform")
def kMaxBatchSize : List Char := strL ("max_batch_size")
def kInstanceGroup : List Char := strL ("instance_group")
def kDynamicBatching : List Char := strL ("dynamic_batching")

/-- `ModelConfig`: the model directory path (kept for the exception
messages) and the root mapping `parse_model_config` produced. -/
structure ModelConfig where
  model_path : List Char
  config : Msg

/-- `ModelConfig.name()`: raises `ConfigFieldMissing` when the key is
absent, otherwise returns the stored value. -/
def ModelConfig.name (mc : ModelConfig) : Except PyErr ConfigValue :=
  match dictLookup mc.config kName with
  | none => .error (.configFieldMissing kName)
  | some v => .ok v

/-- `ModelConfig.platform()`. -/
def ModelConfig.platform (mc : ModelConfig) : Except PyErr ConfigValue :=
  match dictLookup mc.config kPlatform with
  | none => .error (.configFieldMissing kPlatform)
  | some v => .ok v

/-- `ModelConfig.max_batch_size()`: the stored value passed through
`int(...)`. -/
def ModelConfig.max_batch_size (mc : ModelConfig) : Except PyErr Int :=
  match dictLookup mc.config kMaxBatchSize with
  | none => .error (.configFieldMissing kMaxBatchSize)
  | some v => pyInt v

/-- `ModelConfig.instance_group()`. -/
def ModelConfig.instance_group (mc : ModelConfig) : Except PyErr ConfigValue :=
  match dictLookup mc.config kInstanceGroup with
  | none => .error (.configFieldMissing kInstanceGroup)
  | some v => .ok v

/-- `ModelConfig.dynamic_batching()`. -/
def ModelConfig.dynamic_batching (mc : ModelConfig) : Except PyErr ConfigValue :=
  match dictLookup mc.config kDynamicBatching with
  | none => .error (.configFieldMissing kDynamicBatching)
  | some v => .ok v

/-- `ModelConfig.set_instance_group(value)`: unconditional overwrite of the
one root key. -/
def ModelConfig.set_instance_group (mc : ModelConfig) (value : ConfigValue) : ModelConfig :=
  { mc with config := dictSet mc.config kInstanceGroup value }

/-- `ModelConfig.set_dynamic_batching(value)`: unconditional overwrite of
the one root key. -/
def ModelConfig.set_dynamic_batching (mc : ModelConfig) (value : ConfigValue) : ModelConfig :=
  { mc with config := dictSet mc.config kDynamicBatching value }

/-- A cell of a result table row: an identity string, a gpu id, or a
measured number. -/
inductive Cell where
  | s : List Char → Cell
  | n : Nat → Cell
  | q : ℚ → Cell
deriving DecidableEq

/-- The three table keys `ResultManager` uses. -/
inductive TableKey where
  | server_gpu_metrics
  | model_gpu_metrics
  | model_inference_metrics
deriving DecidableEq

/-- Modelled from the spec: `ResultTable`
(`src/model_analyzer/result/result_table.py` is not among the source
files); per the spec a table is an append-only row container within a
sweep, so `insert_row_by_index(row)` appends the row.  Header construction
(`metric.header(aggregation_tag + " ")`) concerns no claim and is not
modeled. -/
structure ResultTable where
  rows : List (List Cell)
deriving DecidableEq

/-- `ResultTable.insert_row_by_index(row)` as the spec's append-only
contract fixes it. -/
def ResultTable.insert_row_by_index (t : ResultTable) (row : List Cell) : ResultTable :=
  { rows := t.rows ++ [row] }

/-- `ResultManager.__init__`: empty table dict, no comparator, an empty
heap list, and no current result yet (reading it before `init_result`
raises `AttributeError`). -/
structure ResultManager where
  result_tables : List (TableKey × ResultTable)
  result_comparator : Option ResultComparator
  results : List RunResult
  current_run_result : Option RunResult

/-- A fresh `ResultManager` (the `config` constructor argument plays no
part in the embedded behaviour). -/
def ResultManager.new : ResultManager :=
  { result_tables := [], result_comparator := none, results := [], current_run_result := none }

/-- `ResultManager.set_result_comparator(comparator)`. -/
def ResultManager.set_result_comparator (m : ResultManager) (c : ResultComparator) :
    ResultManager :=
  { m with result_comparator := some c }

/-- `ResultManager.create_tables(...)`: the three tables are created and
stored under their keys (server-only first, model-gpu, model-inference).
The metric lists and aggregation tag only shape the headers, which are not
modeled. -/
def ResultManager.create_tables (m : ResultManager) (gpuMetrics nonGpuMetrics : List MetricKind)
    (aggregationTag : List Char) : ResultManager :=
  let _ := (gpuMetrics, nonGpuMetrics, aggregationTag)
  { m with
    result_tables :=
      dictSet (dictSet (dictSet m.result_tables .server_gpu_metrics { rows := [] })
        .model_gpu_metrics { rows := [] }) .model_inference_metrics { rows := [] } }

/-- `ResultManager.init_result(run_config)`: fails without tables, then
without a comparator; otherwise a fresh `RunResult` bound to the run
configuration and the current comparator becomes the in-progress result. -/
def ResultManager.init_result (m : ResultManager) (run_config : RunConfig) :
    Except PyErr ResultManager :=
  if m.result_tables.length = 0 then .error .uninitializedTables
  else
    match m.result_comparator with
    | none => .error .uninitializedComparator
    | some comp =>
      let fresh : RunResult :=
        { run_config := run_config, comparator := comp,
          gpu_specific_measurements := [], non_gpu_specific_measurements := [] }
      .ok { m with current_run_result := some fresh }

/-- `ResultManager.add_model_data(measurements, has_gpu_ids)`: appended to
the in-progress result (`AttributeError` when none was initialized). -/
def ResultManager.add_model_data (m : ResultManager) (measurements : GpuSnapshot ⊕ List ℚ) :
    Except PyErr ResultManager :=
  match m.current_run_result with
  | none => .error .attributeError
  | some r => .ok { m with current_run_result := some (r.add_data measurements) }

/-- `ResultManager.complete_result()`: `heapq.heappush(self._results,
self._current_run_result)`; the in-progress slot is not cleared. -/
def ResultManager.complete_result (m : ResultManager) : Except PyErr ResultManager :=
  match m.current_run_result with
  | none => .error .attributeError
  | some r =>
    match heappush RunResult.lt m.results r with
    | .error e => .error e
    | .ok h => .ok { m with results := h }

/-- Table write `self._result_tables[key].insert_row_by_index(row)`:
a missing key is the manager's unknown-table failure. -/
def tableInsert (tables : List (TableKey × ResultTable)) (key : TableKey) (row : List Cell) :
    Except PyErr (List (TableKey × ResultTable)) :=
  match dictLookup tables key with
  | none => .error .unknownTableKey
  | some t => .ok (dictSet tables key (t.insert_row_by_index row))

/-- The gpu half of `_compile_result`'s body: one model-gpu row per
`(gpu_id, metrics)` item of the snapshot dict at index `i`. -/
def insertGpuRows (pc : PerfConfig) : List (Nat × List ℚ) →
    List (TableKey × ResultTable) → Except PyErr (List (TableKey × ResultTable))
  | [], tables => .ok tables
  | (gpu_id, metrics) :: rest, tables =>
    match tableInsert tables .model_gpu_metrics
        ([.s pc.model_name, .n gpu_id, .q pc.batch_size, .q pc.concurrency_range]
          ++ metrics.map Cell.q) with
    | .error e => .error e
    | .ok t1 => insertGpuRows pc rest t1

/-- The `for i in range(len(perf_configs))` loop of
`ResultManager._compile_result`: the identity fields of `perf_configs[i]`
are zipped against `non_gpu_rows[i]` into one model-inference row, then
against each gpu id of `gpu_data[i]` into model-gpu rows; either index can
be out of range. -/
def compileEntries (result : RunResult) : List PerfConfig → Nat →
    List (TableKey × ResultTable) → Except PyErr (List (TableKey × ResultTable))
  | [], _, tables => .ok tables
  | pc :: rest, i, tables =>
    match pyGet result.non_gpu_specific_measurements i with
    | .error e => .error e
    | .ok row =>
      match tableInsert tables .model_inference_metrics
          ([.s pc.model_name, .q pc.batch_size, .q pc.concurrency_range]
            ++ row.map Cell.q) with
      | .error e => .error e
      | .ok t1 =>
        match pyGet result.gpu_specific_measurements i with
        | .error e => .error e
        | .ok gsnap =>
          match insertGpuRows pc gsnap t1 with
          | .error e => .error e
          | .ok t2 => compileEntries result rest (i + 1) t2

/-- `ResultManager._compile_result(result)`. -/
def ResultManager._compile_result (m : ResultManager) (result : RunResult) :
    Except PyErr ResultManager :=
  match compileEntries result result.run_config.perf_analyzer_configs 0 m.result_tables with
  | .error e => .error e
  | .ok ts => .ok { m with result_tables := ts }

/-- The `while self._results` loop of `ResultManager.compile_results`:
pop, compile, repeat.  Each pop shortens the heap by one, so fuel
`length` suffices. -/
def compileLoop : Nat → ResultManager → Except PyErr ResultManager
  | 0, m =>
    match m.results with
    | [] => .ok m
    | _ :: _ => .error .outOfFuel
  | fuel + 1, m =>
    match m.results with
    | [] => .ok m
    | _ :: _ =>
      match heappop RunResult.lt m.results with
      | .error e => .error e
      | .ok (next_best_result, h) =>
        match ResultManager._compile_result { m with results := h } next_best_result with
        | .error e => .error e
        | .ok m1 => compileLoop fuel m1

/-- `ResultManager.compile_results()`. -/
def ResultManager.compile_results (m : ResultManager) : Except PyErr ResultManager :=
  compileLoop m.results.length m

/-! Concrete data the claims are settled on. -/

/-- The spec's scenario text: `name: "m1"`, `platform: "tensorrt"`,
`max_batch_size: 8` and a one-element `instance_group` list holding
`count: 2` in braces. -/
def c6text : List Char :=
  strL ("name: \"m1\"\nplatform: \"tensorrt\"\nmax_batch_size: 8\ninstance_group [\n\x7b\ncount: 2\n\x7d\n]\n")

/-- The tree the scenario text is expected to parse to. -/
def c6expected : Msg :=
  [(kName, .scalar (strL ("m1"))),
   (kPlatform, .scalar (strL ("tensorrt"))),
   (kMaxBatchSize, .scalar (strL ("8"))),
   (kInstanceGroup, .list [.message [(strL ("count"), .scalar (strL ("2")))]])]

/-- A config whose list context reaches end of input while `]` is still
expected: `parse_list` evaluates `config_str[0]` on an empty string. -/
def c7eoi : List Char := strL ("x [\n")

/-- A config whose list context holds a token followed by neither `,` nor
`]`: the scalar branch consumes nothing and loops forever. -/
def c7overrun : List Char := strL ("x [\nabc")

/-- The looping list-context input itself. -/
def c7token : List Char := strL ("abc")

/-- The final line of a config with no trailing newline. -/
def c10line : List Char := strL ("max_batch_size: 8")

/-- An empty run configuration (the comparator never reads it). -/
def rcEmpty : RunConfig := { perf_analyzer_configs := [] }

/-- C1's comparator: kind `0` is accelerator-scoped (position `0` of the
gpu list), kind `1` is host-scoped, the priority list is `[0]`,
threshold percent `1`. -/
def c1cmp : ResultComparator :=
  { gpu_metric_types := [0], non_gpu_metric_types := [1], metric_priorities := [0],
    comparison_threshold_percent := 1 }

/-- C1: one gpu snapshot `(gpu id 0 : [100])` and one host row `[5]`. -/
def c1resA : RunResult :=
  { run_config := rcEmpty, comparator := c1cmp,
    gpu_specific_measurements := [[(0, [100])]], non_gpu_specific_measurements := [[5]] }

/-- C1: one gpu snapshot `(gpu id 0 : [50])` and one host row `[5]`. -/
def c1resB : RunResult :=
  { run_config := rcEmpty, comparator := c1cmp,
    gpu_specific_measurements := [[(0, [50])]], non_gpu_specific_measurements := [[5]] }

/-- C1: no gpu snapshots, host row `[100]`. -/
def c1resC : RunResult :=
  { run_config := rcEmpty, comparator := c1cmp,
    gpu_specific_measurements := [], non_gpu_specific_measurements := [[100]] }

/-- C1: no gpu snapshots, host row `[50]`. -/
def c1resD : RunResult :=
  { run_config := rcEmpty, comparator := c1cmp,
    gpu_specific_measurements := [], non_gpu_specific_measurements := [[50]] }

/-- C2's comparator: kind `1` appears only in the host-scoped list and is
the sole priority. -/
def c2cmp : ResultComparator :=
  { gpu_metric_types := [], non_gpu_metric_types := [1], metric_priorities := [1],
    comparison_threshold_percent := 1 }

/-- C2: a result with a single host row. -/
def c2res (v : ℚ) : RunResult :=
  { run_config := rcEmpty, comparator := c2cmp,
    gpu_specific_measurements := [], non_gpu_specific_measurements := [[v]] }

/-- C3's single-priority comparator: larger host average is better.  The
kind must be registered accelerator-scoped for the lookup to succeed;
the decision reads the host-scoped averages (see C1). -/
def c3cmp : ResultComparator :=
  { gpu_metric_types := [0], non_gpu_metric_types := [0], metric_priorities := [0],
    comparison_threshold_percent := 1 }

/-- C3: a run configuration with one per-combination identity map. -/
def c3rc (nm : List Char) : RunConfig :=
  { perf_analyzer_configs := [{ model_name := nm, batch_size := 1, concurrency_range := 1 }] }

/-- One C3 sweep step: `init_result`, one (empty) gpu snapshot, one host
row `[v]`, `complete_result`. -/
def c3add (m : ResultManager) (nm : List Char) (v : ℚ) : Except PyErr ResultManager :=
  match m.init_result (c3rc nm) with
  | .error e => .error e
  | .ok m1 =>
    match m1.add_model_data (Sum.inl []) with
    | .error e => .error e
    | .ok m2 =>
      match m2.add_model_data (Sum.inr [v]) with
      | .error e => .error e
      | .ok m3 => m3.complete_result

/-- C3's sweep: results with host metric values 10, 20, 15 (models `a`,
`b`, `c`) submitted in that order, then `compile_results`. -/
def c3final : Except PyErr ResultManager :=
  match c3add ((ResultManager.new.set_result_comparator c3cmp).create_tables [0] [0]
      (strL ("Max"))) (strL ("a")) 10 with
  | .error e => .error e
  | .ok m =>
    match c3add m (strL ("b")) 20 with
    | .error e => .error e
    | .ok m2 =>
      match c3add m2 (strL ("c")) 15 with
      | .error e => .error e
      | .ok m3 => m3.compile_results

/-- The rows of the model-inference table after C3's sweep. -/
def c3infRows : Except PyErr (Option (List (List Cell))) :=
  match c3final with
  | .error e => .error e
  | .ok m => .ok ((dictLookup m.result_tables .model_inference_metrics).map ResultTable.rows)

/-- The accumulated result of one C3 step, as `complete_result` pushed it. -/
def c3result (nm : List Char) (v : ℚ) : RunResult :=
  { run_config := c3rc nm, comparator := c3cmp,
    gpu_specific_measurements := [[]], non_gpu_specific_measurements := [[v]] }

/-- C4's comparator as the claim words it: a single host-scoped priority
kind. -/
def c4bad : ResultComparator :=
  { gpu_metric_types := [], non_gpu_metric_types := [0], metric_priorities := [0],
    comparison_threshold_percent := 1 }

/-- C4: a result with one host row for the host-scoped comparator. -/
def c4badRes (v : ℚ) : RunResult :=
  { run_config := rcEmpty, comparator := c4bad,
    gpu_specific_measurements := [], non_gpu_specific_measurements := [[v]] }

/-- C4's comparator with the priority kind registered accelerator-scoped,
the only registration under which the code reaches the threshold test. -/
def c4cmp : ResultComparator :=
  { gpu_metric_types := [0], non_gpu_metric_types := [0], metric_priorities := [0],
    comparison_threshold_percent := 1 }

/-- C4: a result with one host row `[q]`. -/
def c4res (q : ℚ) : RunResult :=
  { run_config := rcEmpty, comparator := c4cmp,
    gpu_specific_measurements := [], non_gpu_specific_measurements := [[q]] }

/-- C5: a comparator with an empty priority list. -/
def c5NoPrio : ResultComparator :=
  { gpu_metric_types := [0], non_gpu_metric_types := [0], metric_priorities := [],
    comparison_threshold_percent := 1 }

/-- C5: a comparator with one (accelerator-registered) priority. -/
def c5Prio : ResultComparator :=
  { gpu_metric_types := [0], non_gpu_metric_types := [0], metric_priorities := [0],
    comparison_threshold_percent := 1 }

/-- C5: a result with zero accumulated snapshots, bound to the
one-priority comparator. -/
def c5emptyRes : RunResult :=
  { run_config := rcEmpty, comparator := c5Prio,
    gpu_specific_measurements := [], non_gpu_specific_measurements := [] }

/-- C5: a zero-snapshot result bound to the no-priority comparator. -/
def c5emptyResNoPrio : RunResult :=
  { run_config := rcEmpty, comparator := c5NoPrio,
    gpu_specific_measurements := [], non_gpu_specific_measurements := [] }

/-! Helper lemmas. -/

theorem tkNe1 : (TableKey.server_gpu_metrics = TableKey.model_gpu_metrics) = False := by decide

theorem tkNe2 : (TableKey.server_gpu_metrics = TableKey.model_inference_metrics) = False := by
  decide

theorem tkNe3 : (TableKey.model_gpu_metrics = TableKey.model_inference_metrics) = False := by
  decide

theorem tkNe4 : (TableKey.model_gpu_metrics = TableKey.server_gpu_metrics) = False := by decide

theorem tkNe5 : (TableKey.model_inference_metrics = TableKey.server_gpu_metrics) = False := by
  decide

theorem tkNe6 : (TableKey.model_inference_metrics = TableKey.model_gpu_metrics) = False := by
  decide

/-- `str.find` returns `-1` whatever the start offset when the character
does not occur. -/
theorem pyFindAux_of_not_mem {c : Char} {l : List Char} (h : c ∉ l) :
    ∀ i, pyFindAux c l i = -1 := by
  induction l with
  | nil => intro i; rfl
  | cons x t ih =>
    intro i
    have hxc : ¬(x == c) = true := by
      simp only [beq_iff_eq]
      intro hx
      exact h (hx ▸ List.mem_cons_self x t)
    simp only [pyFindAux, hxc]
    exact ih (fun hm => h (List.mem_cons_of_mem _ hm)) _

/-- The list context on `abc` consumes nothing — the scalar branch sees
neither `,` nor `]`, takes `delimiter = -1`, appends `ab` and re-enters the
loop on the same string — so every fuel bound is exhausted: the source
loops forever. -/
theorem parse_list_abc_diverges (fuel : Nat) :
    ∀ acc, parse_list fuel c7token acc = .error .outOfFuel := by
  induction fuel with
  | zero => intro acc; rfl
  | succ n ih =>
    intro acc
    have e : parse_list (n + 1) c7token acc
        = parse_list n c7token (acc ++ [.scalar (strL ("ab"))]) := rfl
    rw [e]
    exact ih _

/-- Looking up the key just set returns the value just set. -/
theorem dictLookup_dictSet_self {K V : Type} [DecidableEq K] (m : List (K × V)) (k : K) (v : V) :
    dictLookup (dictSet m k v) k = some v := by
  induction m with
  | nil => simp [dictSet, dictLookup]
  | cons hd t ih =>
    obtain ⟨a, b⟩ := hd
    by_cases hak : a = k
    · subst hak; simp [dictSet, dictLookup]
    · have hka : ¬(k = a) := fun hh => hak hh.symm
      simp [dictSet, hak, dictLookup, hka, ih]

/-- Setting one key leaves every other key's binding unchanged. -/
theorem dictLookup_dictSet_ne {K V : Type} [DecidableEq K] (m : List (K × V)) (k k' : K) (v : V)
    (h : k' ≠ k) : dictLookup (dictSet m k v) k' = dictLookup m k' := by
  induction m with
  | nil => simp [dictSet, dictLookup, h]
  | cons hd t ih =>
    obtain ⟨a, b⟩ := hd
    by_cases hak : a = k
    · subst hak; simp [dictSet, dictLookup, h]
    · by_cases hk'a : k' = a
      · simp [dictSet, hak, dictLookup, hk'a]
      · simp [dictSet, hak, dictLookup, hk'a, ih]

/-- `compare` on C4's accelerator-registered comparator and one-row,
one-snapshot results reduces to the source's two threshold tests over the
host-scoped averages. -/
theorem c4_call_eq (q r : ℚ) :
    c4cmp.call (c4res q) (c4res r) =
      (if (q + 0) * 1 / ((1 : Nat) : ℚ) - (r + 0) * 1 / ((1 : Nat) : ℚ)
            > 1 * 1 / 100 * ((q + 0) * 1 / ((1 : Nat) : ℚ)) then .ok 1
       else if (q + 0) * 1 / ((1 : Nat) : ℚ) - (r + 0) * 1 / ((1 : Nat) : ℚ)
            < -(1 * 1 / 100 * ((q + 0) * 1 / ((1 : Nat) : ℚ))) then .ok (-1)
       else .ok 0) := rfl

/-! The claims. -/

/-- C1: the claim says that for a priority kind in the accelerator-scoped
index, `compare` computes `diff` and `threshold` from the
accelerator-scoped average rows and returns `+1` when `diff > threshold`.
The code does neither: with gpu snapshots present it raises `TypeError`
(the averaging subscripts the `dict_values` views it appended), and with
no gpu snapshots it decides the accelerator-scoped kind from the
host-scoped average rows (here `+1` from host rows `[100]` vs `[50]`,
while both accelerator-scoped averages are the empty row). -/
theorem C1_gpu_priority_misreads_host_rows :
    c1cmp.call c1resA c1resB = .error .typeError ∧
    _average_measurements c1resC = .ok ([], [100]) ∧
    _average_measurements c1resD = .ok ([], [50]) ∧
    c1cmp.call c1resC c1resD = .ok 1 := by
  refine ⟨rfl, ?_, ?_, ?_⟩ <;>
    norm_num [ResultComparator.call, _average_measurements, _average_list, avgLoop, columnAt,
      PyRow.sub, PyRow.len, pyGet, comparePriorities, typeToIdx, ResultComparator.factor,
      c1cmp, c1resC, c1resD]

/-- C2: the claim says a priority kind present only in the host-scoped
index never raises and is decided through the host-scoped average row.
The code tests the gpu index twice (the `elif` repeats the `if`'s
condition), so the host-only kind `1` falls to the `else` and raises
`UnknownMetricCategory` even though both results carry a perfectly good
host row for it. -/
theorem C2_host_only_priority_raises_unknown_category :
    c2cmp.call (c2res 10) (c2res 12) = .error (.unknownMetricCategory 1) := rfl

set_option maxHeartbeats 1000000 in
/-- C3: the claim says `compile` emits queued results best-to-worst (host
averages 10, 20, 15 must come out 20, 15, 10).  The code pushes results
into a `heapq` **min**-heap whose derived `__lt__` means "worse than", so
`heappop` hands back the worst result first: the model-inference rows come
out 10, 15, 20 — worst to best — although the comparator itself ranks 20
above 10 (second conjunct). -/
theorem C3_compile_emits_worst_first :
    c3infRows =
      .ok (some [[.s (strL ("a")), .q 1, .q 1, .q 10],
                 [.s (strL ("c")), .q 1, .q 1, .q 15],
                 [.s (strL ("b")), .q 1, .q 1, .q 20]]) ∧
    c3cmp.call (c3result (strL ("b")) 20) (c3result (strL ("a")) 10) = .ok 1 := by
  refine ⟨?_, ?_⟩ <;>
    norm_num [c3infRows, c3final, c3add, c3rc, c3cmp, c3result, ResultManager.new,
      ResultManager.set_result_comparator, ResultManager.create_tables,
      ResultManager.init_result, ResultManager.add_model_data, RunResult.add_data,
      ResultManager.complete_result, ResultManager.compile_results, compileLoop,
      ResultManager._compile_result, compileEntries, insertGpuRows, tableInsert,
      ResultTable.insert_row_by_index,
      heappush, heappop, _siftdown, _siftup, siftdownLoop, siftupLoop, listSet,
      RunResult.lt, RunResult.gt, RunResult.eq, ResultComparator.call,
      _average_measurements, _average_list, avgLoop, columnAt, PyRow.sub, PyRow.len,
      pyGet, comparePriorities, typeToIdx, ResultComparator.factor,
      dictSet, dictLookup, strL, tkNe1, tkNe2, tkNe3, tkNe4, tkNe5, tkNe6]

/-- C4, counterexample: with threshold percent 1 and a single host-scoped
priority kind, two results whose host averages differ by exactly 1% of
`a`'s (100 vs 99) do not compare as `0` — the comparator raises
`UnknownMetricCategory` because a host-only kind never passes the
(duplicated) gpu-index test. -/
theorem C4_host_scoped_boundary_raises :
    c4bad.call (c4badRes 100) (c4badRes 99) = .error (.unknownMetricCategory 0) := rfl

/-- C4, as amended: with threshold percent 1 and a single priority kind
that is registered accelerator-scoped (the only registration under which
the code reaches its threshold test), two one-row results whose
host-scoped averages differ by exactly 1% of `a`'s nonnegative average
compare as `0`: a priority decides only on strict inequality, otherwise
the walk falls through and ends in `0`. -/
theorem C4_exact_threshold_compares_equal (q r : ℚ) (h : q - r = 1 / 100 * q) (hq : 0 ≤ q) :
    c4cmp.call (c4res q) (c4res r) = .ok 0 := by
  rw [c4_call_eq]
  have e1 : (q + 0) * 1 / ((1 : Nat) : ℚ) = q := by push_cast; ring
  have e2 : (r + 0) * 1 / ((1 : Nat) : ℚ) = r := by push_cast; ring
  rw [e1, e2]
  rw [if_neg, if_neg]
  · intro hc; rw [h] at hc; nlinarith
  · intro hc; rw [h] at hc; nlinarith

/-- C4, witness: averages 100 and 99 under percent 1 compare as `0`. -/
theorem C4_exact_threshold_compares_equal_witness :
    c4cmp.call (c4res 100) (c4res 99) = .ok 0 :=
  C4_exact_threshold_compares_equal 100 99 (by norm_num) (by norm_num)

/-- C5, counterexample: `compare` on a zero-snapshot result *does* fail
when a priority must be decided — both average rows are empty and the
priority's index lookup into the host-scoped average row raises
`IndexError`. -/
theorem C5_compare_fails_on_empty_snapshots :
    c5Prio.call c5emptyRes c5emptyRes = .error .indexError := rfl

/-- C5, as amended: a result with zero accumulated snapshots averages to
an empty row for both the accelerator-scoped and the host-scoped universe
without failure, and `compare` on such results does not fail when the
priority list is empty (it returns `0`); with any priority to decide it
fails (see the counterexample). -/
theorem C5_empty_snapshots_average_empty (res res2 : RunResult)
    (h1 : res.gpu_specific_measurements = [])
    (h2 : res.non_gpu_specific_measurements = [])
    (h3 : res2.gpu_specific_measurements = [])
    (h4 : res2.non_gpu_specific_measurements = []) :
    _average_measurements res = .ok ([], []) ∧
    ResultComparator.call c5NoPrio res res2 = .ok 0 := by
  refine ⟨?_, ?_⟩ <;>
    simp [ResultComparator.call, _average_measurements, _average_list, comparePriorities,
      h1, h2, h3, h4, c5NoPrio]

/-- C5, witness: the zero-snapshot result under the no-priority
comparator. -/
theorem C5_empty_snapshots_average_empty_witness :
    _average_measurements c5emptyResNoPrio = .ok ([], []) ∧
    ResultComparator.call c5NoPrio c5emptyResNoPrio c5emptyResNoPrio = .ok 0 :=
  C5_empty_snapshots_average_empty c5emptyResNoPrio c5emptyResNoPrio rfl rfl rfl rfl

/-- C6: the spec's scenario text parses to a `Message` with scalar
`name = m1`, scalar `platform = tensorrt`, scalar `max_batch_size = 8`
(a string, not an integer), and `instance_group` a list holding exactly
one `Message` with `count = 2`. -/
theorem C6_scenario_text_parses : parse_model_config (some c6text) = .ok c6expected := rfl

/-- C7, counterexample: a scan that reaches end of input while the closing
bracket of an open list context is still expected terminates with Python's
`IndexError` (`config_str[0]` on an empty string), not with a
`MalformedConfigText` signal — the parser raises no such error anywhere. -/
theorem C7_eoi_in_list_raises_index_error :
    parse_model_config (some c7eoi) = .error .indexError := rfl

/-- C7, as amended: parsing signals a file-not-found error when the
backing resource cannot be read; when the scan reaches end of input while
`]` is expected it terminates with an uncaught `IndexError` rather than a
`MalformedConfigText`; and a list element followed by neither `,` nor `]`
makes the scalar branch consume nothing, so the parser loops forever
(every fuel bound is exhausted, and the whole parse of such a config
exhausts its bound too). -/
theorem C7_parse_error_behaviour :
    parse_model_config none = .error .fileNotFound ∧
    parse_model_config (some c7eoi) = .error .indexError ∧
    parse_model_config (some c7overrun) = .error .outOfFuel ∧
    (∀ fuel acc, parse_list fuel c7token acc = .error .outOfFuel) :=
  ⟨rfl, rfl, rfl, fun fuel acc => parse_list_abc_diverges fuel acc⟩

/-- C8: each of the five `ModelConfig` accessors fails with
`ConfigFieldMissing` naming its field when the root `Message` lacks the
key, and returns the stored value when it is present
(`max_batch_size` passed through `int(...)`). -/
theorem C8_accessors_strict (mc : ModelConfig) :
    (dictLookup mc.config kName = none → mc.name = .error (.configFieldMissing kName)) ∧
    (∀ v, dictLookup mc.config kName = some v → mc.name = .ok v) ∧
    (dictLookup mc.config kPlatform = none →
      mc.platform = .error (.configFieldMissing kPlatform)) ∧
    (∀ v, dictLookup mc.config kPlatform = some v → mc.platform = .ok v) ∧
    (dictLookup mc.config kMaxBatchSize = none →
      mc.max_batch_size = .error (.configFieldMissing kMaxBatchSize)) ∧
    (∀ v, dictLookup mc.config kMaxBatchSize = some v → mc.max_batch_size = pyInt v) ∧
    (dictLookup mc.config kInstanceGroup = none →
      mc.instance_group = .error (.configFieldMissing kInstanceGroup)) ∧
    (∀ v, dictLookup mc.config kInstanceGroup = some v → mc.instance_group = .ok v) ∧
    (dictLookup mc.config kDynamicBatching = none →
      mc.dynamic_batching = .error (.configFieldMissing kDynamicBatching)) ∧
    (∀ v, dictLookup mc.config kDynamicBatching = some v → mc.dynamic_batching = .ok v) := by
  refine ⟨fun h => ?_, fun v h => ?_, fun h => ?_, fun v h => ?_, fun h => ?_, fun v h => ?_,
    fun h => ?_, fun v h => ?_, fun h => ?_, fun v h => ?_⟩ <;>
    simp [ModelConfig.name, ModelConfig.platform, ModelConfig.max_batch_size,
      ModelConfig.instance_group, ModelConfig.dynamic_batching, h]

/-- C9: `set_instance_group v` (resp. `set_dynamic_batching v`) overwrites
exactly its root key, whatever was there before: afterwards the matching
accessor returns exactly `v` without error, and every other root key's
binding is unchanged. -/
theorem C9_setters_overwrite_frame (mc : ModelConfig) (v : ConfigValue) :
    (mc.set_instance_group v).instance_group = .ok v ∧
    (∀ k, k ≠ kInstanceGroup →
      dictLookup (mc.set_instance_group v).config k = dictLookup mc.config k) ∧
    (mc.set_dynamic_batching v).dynamic_batching = .ok v ∧
    (∀ k, k ≠ kDynamicBatching →
      dictLookup (mc.set_dynamic_batching v).config k = dictLookup mc.config k) := by
  refine ⟨?_, fun k hk => ?_, ?_, fun k hk => ?_⟩
  · simp [ModelConfig.instance_group, ModelConfig.set_instance_group, dictLookup_dictSet_self]
  · exact dictLookup_dictSet_ne _ _ _ _ hk
  · simp [ModelConfig.dynamic_batching, ModelConfig.set_dynamic_batching,
      dictLookup_dictSet_self]
  · exact dictLookup_dictSet_ne _ _ _ _ hk

/-- C10: on any input without a line-break character — in particular a
final `key: value` line with no trailing newline — the dict-context parser
returns at once with the message unchanged and the remainder equal to the
input minus its leading whitespace: the trailing content is silently
omitted, neither parsed as an entry nor reported as an error. -/
theorem C10_dict_parser_stops_without_newline (s : List Char) (out : Msg) (fuel : Nat)
    (h : '\n' ∉ s) :
    parse_dict (fuel + 1) s out = .ok (out, lstripL s) := by
  have h2 : '\n' ∉ lstripL s := by
    intro hm
    exact h ((List.dropWhile_sublist isPySpace).subset hm)
  have hfind : pyFind (lstripL s) '\n' = -1 := pyFindAux_of_not_mem h2 0
  simp only [parse_dict, lstripL] at *
  rw [hfind]
  norm_num

/-- C10, witness: the final line `max_batch_size: 8` without a newline is
handed back whole, with nothing added to the message. -/
theorem C10_dict_parser_stops_without_newline_witness :
    parse_dict 1 c10line [] = .ok ([], c10line) :=
  C10_dict_parser_stops_without_newline c10line [] 0 (by decide)
